import Mathlib

/-!
Verification of the Data Validation + Drift Detection stage of the
`etl_ml_project` pipeline (`network_security/components/data_validation.py`),
shallowly embedded in Lean 4.

Modelling conventions:
* A pandas `DataFrame` is a `Table`: an ordered list of named columns, each an
  ordered list of optional values (`none` models a null/NaN cell).
* A cell value is either numeric (modelled as `ℚ`) or a string; a column whose
  non-null values are all numeric has numeric dtype (an all-null column is
  `float64` in pandas, hence numeric), mirroring `pd.api.types.is_numeric_dtype`.
* `scipy.stats.ks_2samp` is an external collaborator; the detector is
  parametric in a fallible p-value function `ks`.  `ks_2samp_model` captures
  scipy's documented input contract (raising on empty data).
* File-system effects (`pd.read_csv`, `to_csv`, `write_yaml_file`) are modelled
  as an explicit `Event` trace returned alongside the result, and reading is a
  fallible function `String → Except String Table` supplied by the caller.
* Python exceptions wrapped in `NetworkSecurityException` are modelled as
  `Except.error` results.
-/

/-- A cell value of a loaded table: numeric (pandas int/float, modelled as `ℚ`)
or textual. -/
inductive Value where
  | num (q : ℚ)
  | str (s : String)
deriving DecidableEq

/-- One column of a `DataFrame`: the cell sequence, `none` for null/NaN. -/
abbrev ColumnData := List (Option Value)

/-- A `DataFrame`: ordered, named columns. -/
abbrev Table := List (String × ColumnData)

/-- Model of `Series.dropna`: discard the null cells of a column. -/
def dropna (c : ColumnData) : List Value :=
  c.filterMap id

/-- Whether a value is numeric. -/
def Value.isNum : Value → Bool
  | .num _ => true
  | .str _ => false

/-- Model of `pd.api.types.is_numeric_dtype` on a (null-dropped) column: pandas infers a
numeric dtype exactly when every non-null cell is numeric (an all-null column
is `float64`, hence numeric). -/
def is_numeric_dtype (vals : List Value) : Bool :=
  vals.all Value.isNum

/-- Extract the rational contents of a sample; errors if a non-numeric value is
fed to the numeric statistical test (Python would raise a `TypeError` inside
`ks_2samp`). -/
def asNums : List Value → Except String (List ℚ)
  | [] => .ok []
  | .num q :: rest =>
    match asNums rest with
    | .ok l => .ok (q :: l)
    | .error e => .error e
  | .str _ :: _ => .error "ks_2samp: non-numeric data"

/-- Model of `Series.value_counts(normalize=True)` looked up with `.get(cat, 0)`: the
relative frequency of category `c` in the sample `l` (0 when the sample is
empty, matching the empty frequency table). -/
def freq (l : List Value) (c : Value) : ℚ :=
  (l.count c : ℚ) / (l.length : ℚ)

/-- The categorical drift score of `data_validation.py` (lines 104-107): the sum
over the union of both category sets of the absolute difference of normalized
frequencies. -/
def l1_dist (l1 l2 : List Value) : ℚ :=
  ∑ c ∈ l1.toFinset ∪ l2.toFinset, |freq l1 c - freq l2 c|

/-- Per-column outcome stored in the drift report:
`{"p_value": float, "drift_detected": bool}`. -/
structure ColumnDriftRecord where
  p_value : ℚ
  drift_detected : Bool
deriving DecidableEq

/-- The drift report: mapping (insertion-ordered, as a Python dict) from column
name to its record. -/
abbrev DriftReport := List (String × ColumnDriftRecord)

/-- Column access `current_df[column]`: find a column by name. -/
def lookupColumn (t : Table) (name : String) : Option ColumnData :=
  (t.find? (fun c => c.1 == name)).map (fun c => c.2)

/-- The body of the per-column loop of `detect_dataset_drift` (lines 97-116)
after the null-drop, acting on `d1 = base_df[column].dropna()` and
`d2 = current_df[column].dropna()`: numeric reference columns go through the
two-sample KS test `ks`, other columns through the normalized-frequency L1
comparison with pseudo p-value `1 - diff`. -/
def compareColumn (ks : List ℚ → List ℚ → Except String ℚ) (threshold : ℚ)
    (d1 d2 : List Value) : Except String ColumnDriftRecord :=
  if is_numeric_dtype d1 then
    match asNums d1 with
    | .error e => .error e
    | .ok n1 =>
      match asNums d2 with
      | .error e => .error e
      | .ok n2 =>
        match ks n1 n2 with
        | .error e => .error e
        | .ok p_value => .ok ⟨p_value, decide (p_value < threshold)⟩
  else
    let diff := l1_dist d1 d2
    .ok ⟨1 - diff, decide (diff > threshold)⟩

/-- The column loop of `detect_dataset_drift` (lines 89-116): iterate the
reference columns in order, skip the ones absent from `current`, accumulate the
report and the overall status (`status` starts `True` and is forced `False` by
any flagged column); any exception aborts the whole call. -/
def detectLoop (ks : List ℚ → List ℚ → Except String ℚ) (current : Table)
    (threshold : ℚ) : List (String × ColumnData) → Except String (Bool × DriftReport)
  | [] => .ok (true, [])
  | (name, vals) :: rest =>
    match lookupColumn current name with
    | none => detectLoop ks current threshold rest
    | some cvals =>
      match compareColumn ks threshold (dropna vals) (dropna cvals) with
      | .error e => .error e
      | .ok record =>
        match detectLoop ks current threshold rest with
        | .error e => .error e
        | .ok (status, report) =>
          .ok ((!record.drift_detected) && status, (name, record) :: report)

/-- Model of `DataValidation.detect_dataset_drift` (lines 81-126): compare `base_df`
against `current_df` column by column; returns the overall status and the
report that the source then persists to YAML (the persisting write is recorded
by the orchestrator's event trace).  `threshold` defaults to 0.05. -/
def detect_dataset_drift (ks : List ℚ → List ℚ → Except String ℚ)
    (base_df current_df : Table) (threshold : ℚ := 1/20) :
    Except String (Bool × DriftReport) :=
  detectLoop ks current_df threshold base_df

/-- The parsed schema YAML (`read_yaml_file(SCHEMA_FILE_PATH)`): a document
that may or may not carry the `"columns"` key. -/
structure SchemaConfig where
  columns : Option (List String)
deriving DecidableEq

/-- Model of `DataValidation.validate_no_of_columns` (lines 60-79): compare the number
of table columns against the number of schema columns; accessing a missing
`"columns"` key raises (`KeyError` wrapped in `NetworkSecurityException`). -/
def validate_no_of_columns (schema : SchemaConfig) (dataframe : Table) :
    Except String Bool :=
  match schema.columns with
  | none => .error "KeyError: columns"
  | some required_columns => .ok (dataframe.length == required_columns.length)

/-- Output of the data-ingestion stage: the two source paths. -/
structure DataIngestionArtifact where
  trained_file_path : String
  test_file_path : String

/-- Configured output paths of the validation stage. -/
structure DataValidationConfig where
  valid_train_file_path : String
  valid_test_file_path : String
  invalid_train_file_path : String
  invalid_test_file_path : String
  drift_report_file_path : String

/-- Result record `DataValidationArtifact` of the validation stage.  The
source passes `None` for the unset paths, hence `Option String`. -/
structure DataValidationArtifact where
  validation_status : Bool
  valid_train_file_path : Option String
  valid_test_file_path : Option String
  invalid_train_file_path : Option String
  invalid_test_file_path : Option String
  drift_report_file_path : String
deriving DecidableEq

/-- Observable file-system effects of one validation run. -/
inductive Event where
  | readTable (path : String)
  | writeReport (path : String) (report : DriftReport)
  | writeTable (path : String) (t : Table)
deriving DecidableEq

/-- Model of `DataValidation.initiate_data_validation` (lines 128-174): read both
tables, validate the column counts, short-circuit to a rejection artifact on
failure, otherwise run drift detection (persisting the report), persist both
tables verbatim to the valid paths and return the artifact.  `reader` models
`pd.read_csv`; the returned list is the trace of file-system effects in
program order. -/
def initiate_data_validation (ks : List ℚ → List ℚ → Except String ℚ)
    (reader : String → Except String Table) (ingestion : DataIngestionArtifact)
    (config : DataValidationConfig) (schema : SchemaConfig) :
    List Event × Except String DataValidationArtifact :=
  let train_file_path := ingestion.trained_file_path
  let test_file_path := ingestion.test_file_path
  match reader train_file_path with
  | .error e => ([.readTable train_file_path], .error e)
  | .ok train_dataframe =>
    match reader test_file_path with
    | .error e => ([.readTable train_file_path, .readTable test_file_path], .error e)
    | .ok test_dataframe =>
      let reads := [Event.readTable train_file_path, Event.readTable test_file_path]
      match validate_no_of_columns schema train_dataframe with
      | .error e => (reads, .error e)
      | .ok valid_train =>
        match validate_no_of_columns schema test_dataframe with
        | .error e => (reads, .error e)
        | .ok valid_test =>
          if valid_train && valid_test then
            match detect_dataset_drift ks train_dataframe test_dataframe with
            | .error e => (reads, .error e)
            | .ok (drift_status, report) =>
              (reads ++ [.writeReport config.drift_report_file_path report,
                         .writeTable config.valid_train_file_path train_dataframe,
                         .writeTable config.valid_test_file_path test_dataframe],
               .ok { validation_status := drift_status
                     valid_train_file_path := some config.valid_train_file_path
                     valid_test_file_path := some config.valid_test_file_path
                     invalid_train_file_path := none
                     invalid_test_file_path := none
                     drift_report_file_path := config.drift_report_file_path })
          else
            (reads,
             .ok { validation_status := false
                   valid_train_file_path := none
                   valid_test_file_path := none
                   invalid_train_file_path :=
                     if valid_train then none else some train_file_path
                   invalid_test_file_path :=
                     if valid_test then none else some test_file_path
                   drift_report_file_path := config.drift_report_file_path })

/-- The full stage: `DataValidation.__init__` loads the schema YAML first
(wrapping any failure), so a failed schema read aborts before any table is
read; afterwards `initiate_data_validation` runs. -/
def run_data_validation (ks : List ℚ → List ℚ → Except String ℚ)
    (reader : String → Except String Table) (schema_read : Except String SchemaConfig)
    (ingestion : DataIngestionArtifact) (config : DataValidationConfig) :
    List Event × Except String DataValidationArtifact :=
  match schema_read with
  | .error e => ([], .error e)
  | .ok schema => initiate_data_validation ks reader ingestion config schema

/-- Model of the input contract of the external `scipy.stats.ks_2samp`: scipy
raises `ValueError("Data passed to ks_2samp must not be empty")` when either
sample is empty.  The p-value returned on non-empty samples is not computed by
this repository and none of the claims depends on its numeric value, so it is
abstracted to a fixed placeholder here; theorems about the numeric branch are
parametric in the p-value function instead. -/
def ks_2samp_model (a b : List ℚ) : Except String ℚ :=
  if a.isEmpty || b.isEmpty then
    .error "Data passed to ks_2samp must not be empty"
  else
    .ok 1

/-! ### Helper lemmas about the detector loop -/

theorem detectLoop_nil (ks : List ℚ → List ℚ → Except String ℚ) (current : Table)
    (threshold : ℚ) : detectLoop ks current threshold [] = .ok (true, []) := rfl

/-- The overall status accumulated by the loop is the conjunction of the
negated per-column flags of the report. -/
theorem detectLoop_status (ks : List ℚ → List ℚ → Except String ℚ) (current : Table)
    (threshold : ℚ) (cols : List (String × ColumnData)) :
    ∀ {st : Bool} {rep : DriftReport},
      detectLoop ks current threshold cols = .ok (st, rep) →
      st = rep.all (fun nr => !nr.2.drift_detected) := by
  induction cols with
  | nil =>
    intro st rep h
    simp only [detectLoop, Except.ok.injEq, Prod.mk.injEq] at h
    obtain ⟨h1, h2⟩ := h
    subst h1; subst h2
    rfl
  | cons head rest ih =>
    obtain ⟨name, vals⟩ := head
    intro st rep h
    simp only [detectLoop] at h
    split at h
    · exact ih h
    · split at h
      · exact absurd h (by simp)
      · split at h
        · exact absurd h (by simp)
        · rename_i record pr status report heq
          simp only [Except.ok.injEq, Prod.mk.injEq] at h
          obtain ⟨h1, h2⟩ := h
          subst h1; subst h2
          simp [ih heq, Bool.and_comm]

/-- Every record of the report produced by the loop comes from comparing the
null-dropped reference column with the null-dropped candidate column of the
same name. -/
theorem detectLoop_sound (ks : List ℚ → List ℚ → Except String ℚ) (current : Table)
    (threshold : ℚ) (cols : List (String × ColumnData)) :
    ∀ {st : Bool} {rep : DriftReport},
      detectLoop ks current threshold cols = .ok (st, rep) →
      ∀ nr ∈ rep, ∃ vals cvals, (nr.1, vals) ∈ cols ∧
        lookupColumn current nr.1 = some cvals ∧
        compareColumn ks threshold (dropna vals) (dropna cvals) = .ok nr.2 := by
  induction cols with
  | nil =>
    intro st rep h nr hnr
    simp only [detectLoop, Except.ok.injEq, Prod.mk.injEq] at h
    obtain ⟨-, h2⟩ := h
    subst h2
    exact absurd hnr (List.not_mem_nil nr)
  | cons head rest ih =>
    obtain ⟨name, vals⟩ := head
    intro st rep h nr hnr
    simp only [detectLoop] at h
    split at h
    · obtain ⟨v, cv, hmem, hlook, hcomp⟩ := ih h nr hnr
      exact ⟨v, cv, List.mem_cons_of_mem _ hmem, hlook, hcomp⟩
    · split at h
      · exact absurd h (by simp)
      · split at h
        · exact absurd h (by simp)
        · rename_i x1 cvals hlook x2 record hcomp x3 status report heq
          simp only [Except.ok.injEq, Prod.mk.injEq] at h
          obtain ⟨-, h2⟩ := h
          subst h2
          rcases List.mem_cons.mp hnr with hhead | htail
          · subst hhead
            exact ⟨vals, cvals, List.mem_cons_self _ _, hlook, hcomp⟩
          · obtain ⟨v, cv, hmem, hlook', hcomp'⟩ := ih heq nr htail
            exact ⟨v, cv, List.mem_cons_of_mem _ hmem, hlook', hcomp'⟩

/-- If every reference column is absent from the candidate, the loop skips
everything: empty report, status `true`. -/
theorem detectLoop_all_skipped (ks : List ℚ → List ℚ → Except String ℚ)
    (current : Table) (threshold : ℚ) (cols : List (String × ColumnData))
    (hdisj : ∀ name vals, (name, vals) ∈ cols → lookupColumn current name = none) :
    detectLoop ks current threshold cols = .ok (true, []) := by
  induction cols with
  | nil => rfl
  | cons head rest ih =>
    obtain ⟨name, vals⟩ := head
    simp only [detectLoop]
    rw [hdisj name vals (List.mem_cons_self _ _)]
    exact ih (fun n v hv => hdisj n v (List.mem_cons_of_mem _ hv))

/-- A column of numeric dtype successfully converts to a rational sample. -/
theorem asNums_of_numeric (l : List Value) (h : is_numeric_dtype l = true) :
    ∃ n, asNums l = .ok n := by
  induction l with
  | nil => exact ⟨[], rfl⟩
  | cons v rest ih =>
    simp only [is_numeric_dtype, List.all_cons, Bool.and_eq_true] at h
    obtain ⟨hv, hrest⟩ := h
    obtain ⟨n, hn⟩ := ih hrest
    cases v with
    | num q =>
      refine ⟨q :: n, ?_⟩
      simp only [asNums, hn]
    | str s => simp [Value.isNum] at hv

/-! ### Helper lemmas about the orchestrator -/

/-- Unfolding of `initiate_data_validation` when both schema checks pass. -/
theorem initiate_ok_of_valid (ks : List ℚ → List ℚ → Except String ℚ)
    (reader : String → Except String Table) (ingestion : DataIngestionArtifact)
    (config : DataValidationConfig) (schema : SchemaConfig) (cols : List String)
    (train test : Table) (status : Bool) (report : DriftReport)
    (hschema : schema.columns = some cols)
    (htrain : reader ingestion.trained_file_path = .ok train)
    (htest : reader ingestion.test_file_path = .ok test)
    (h1 : train.length = cols.length) (h2 : test.length = cols.length)
    (hdrift : detect_dataset_drift ks train test = .ok (status, report)) :
    initiate_data_validation ks reader ingestion config schema =
      ([.readTable ingestion.trained_file_path, .readTable ingestion.test_file_path,
        .writeReport config.drift_report_file_path report,
        .writeTable config.valid_train_file_path train,
        .writeTable config.valid_test_file_path test],
       .ok { validation_status := status
             valid_train_file_path := some config.valid_train_file_path
             valid_test_file_path := some config.valid_test_file_path
             invalid_train_file_path := none
             invalid_test_file_path := none
             drift_report_file_path := config.drift_report_file_path }) := by
  simp only [initiate_data_validation, validate_no_of_columns, htrain, htest, hschema,
    h1, h2, beq_self_eq_true, Bool.and_self, if_true, hdrift]
  rfl

/-- Unfolding of `initiate_data_validation` when a schema check fails. -/
theorem initiate_rejected_of_invalid (ks : List ℚ → List ℚ → Except String ℚ)
    (reader : String → Except String Table) (ingestion : DataIngestionArtifact)
    (config : DataValidationConfig) (schema : SchemaConfig) (cols : List String)
    (train test : Table)
    (hschema : schema.columns = some cols)
    (htrain : reader ingestion.trained_file_path = .ok train)
    (htest : reader ingestion.test_file_path = .ok test)
    (hfail : ¬(train.length = cols.length ∧ test.length = cols.length)) :
    initiate_data_validation ks reader ingestion config schema =
      ([.readTable ingestion.trained_file_path, .readTable ingestion.test_file_path],
       .ok { validation_status := false
             valid_train_file_path := none
             valid_test_file_path := none
             invalid_train_file_path :=
               if train.length = cols.length then none
               else some ingestion.trained_file_path
             invalid_test_file_path :=
               if test.length = cols.length then none
               else some ingestion.test_file_path
             drift_report_file_path := config.drift_report_file_path }) := by
  by_cases hA : train.length = cols.length <;> by_cases hB : test.length = cols.length
  · exact absurd ⟨hA, hB⟩ hfail
  all_goals
    simp [initiate_data_validation, validate_no_of_columns, htrain, htest, hschema, hA, hB]

/-! ### Claims -/

/-- C1: when schema validation fails for the reference table or the candidate
table (or both), `initiate_data_validation` returns an artifact with
`validation_status = false`, `valid_*` unset, `invalid_*` set exactly for the
failing table(s) to that table's source path, `drift_report_file_path` set to
the configured path; the event trace holds only the two reads (no drift report
and no table is written) and the result does not depend on the drift detector,
i.e. no drift comparison is performed. -/
theorem c1_rejection_short_circuit
    (ks ks' : List ℚ → List ℚ → Except String ℚ)
    (reader : String → Except String Table) (ingestion : DataIngestionArtifact)
    (config : DataValidationConfig) (schema : SchemaConfig) (cols : List String)
    (train test : Table)
    (hschema : schema.columns = some cols)
    (htrain : reader ingestion.trained_file_path = .ok train)
    (htest : reader ingestion.test_file_path = .ok test)
    (hfail : train.length ≠ cols.length ∨ test.length ≠ cols.length) :
    initiate_data_validation ks reader ingestion config schema =
      ([.readTable ingestion.trained_file_path, .readTable ingestion.test_file_path],
       .ok { validation_status := false
             valid_train_file_path := none
             valid_test_file_path := none
             invalid_train_file_path :=
               if train.length = cols.length then none
               else some ingestion.trained_file_path
             invalid_test_file_path :=
               if test.length = cols.length then none
               else some ingestion.test_file_path
             drift_report_file_path := config.drift_report_file_path }) ∧
    initiate_data_validation ks reader ingestion config schema =
      initiate_data_validation ks' reader ingestion config schema := by
  have hf : ¬(train.length = cols.length ∧ test.length = cols.length) := by
    rcases hfail with h | h
    · exact fun hc => h hc.1
    · exact fun hc => h hc.2
  refine ⟨initiate_rejected_of_invalid ks reader ingestion config schema cols
    train test hschema htrain htest hf, ?_⟩
  rw [initiate_rejected_of_invalid ks reader ingestion config schema cols
    train test hschema htrain htest hf,
    initiate_rejected_of_invalid ks' reader ingestion config schema cols
    train test hschema htrain htest hf]

/-- C1 witness: a concrete rejected run (reference table has 1 column, schema
requires 2; candidate has 2 columns). -/
theorem c1_rejection_short_circuit_witness :
    initiate_data_validation ks_2samp_model
      (fun p => if p = "train.csv" then .ok [("A", [])]
                else .ok [("A", []), ("B", [])])
      ⟨"train.csv", "test.csv"⟩ ⟨"vt.csv", "vs.csv", "it.csv", "is.csv", "drift.yaml"⟩
      ⟨some ["A", "B"]⟩ =
      ([.readTable "train.csv", .readTable "test.csv"],
       .ok { validation_status := false
             valid_train_file_path := none
             valid_test_file_path := none
             invalid_train_file_path :=
               if ([("A", ([] : ColumnData))] : Table).length = (["A", "B"] : List String).length
               then none else some "train.csv"
             invalid_test_file_path :=
               if ([("A", []), ("B", [])] : Table).length = (["A", "B"] : List String).length
               then none else some "test.csv"
             drift_report_file_path := "drift.yaml" }) ∧
    initiate_data_validation ks_2samp_model
      (fun p => if p = "train.csv" then .ok [("A", [])]
                else .ok [("A", []), ("B", [])])
      ⟨"train.csv", "test.csv"⟩ ⟨"vt.csv", "vs.csv", "it.csv", "is.csv", "drift.yaml"⟩
      ⟨some ["A", "B"]⟩ =
    initiate_data_validation (fun _ _ => .ok 0)
      (fun p => if p = "train.csv" then .ok [("A", [])]
                else .ok [("A", []), ("B", [])])
      ⟨"train.csv", "test.csv"⟩ ⟨"vt.csv", "vs.csv", "it.csv", "is.csv", "drift.yaml"⟩
      ⟨some ["A", "B"]⟩ :=
  c1_rejection_short_circuit ks_2samp_model (fun _ _ => .ok 0) _ _ _ _ ["A", "B"]
    [("A", [])] [("A", []), ("B", [])] rfl rfl rfl (by decide)

/-- C2: when schema validation passes for both tables, the reference and
candidate tables are written verbatim to the configured valid output paths
(regardless of the drift outcome — the status `status` is arbitrary here, so
drift detection never causes rejection), and the returned artifact carries
`validation_status = status` (the drift detector's overall status), `valid_*`
set to the output paths and `invalid_*` unset. -/
theorem c2_drift_never_rejects (ks : List ℚ → List ℚ → Except String ℚ)
    (reader : String → Except String Table) (ingestion : DataIngestionArtifact)
    (config : DataValidationConfig) (schema : SchemaConfig) (cols : List String)
    (train test : Table) (status : Bool) (report : DriftReport)
    (hschema : schema.columns = some cols)
    (htrain : reader ingestion.trained_file_path = .ok train)
    (htest : reader ingestion.test_file_path = .ok test)
    (h1 : train.length = cols.length) (h2 : test.length = cols.length)
    (hdrift : detect_dataset_drift ks train test = .ok (status, report)) :
    initiate_data_validation ks reader ingestion config schema =
      ([.readTable ingestion.trained_file_path, .readTable ingestion.test_file_path,
        .writeReport config.drift_report_file_path report,
        .writeTable config.valid_train_file_path train,
        .writeTable config.valid_test_file_path test],
       .ok { validation_status := status
             valid_train_file_path := some config.valid_train_file_path
             valid_test_file_path := some config.valid_test_file_path
             invalid_train_file_path := none
             invalid_test_file_path := none
             drift_report_file_path := config.drift_report_file_path }) :=
  initiate_ok_of_valid ks reader ingestion config schema cols train test status
    report hschema htrain htest h1 h2 hdrift

/-- C2 witness: a concrete accepted run in which drift IS detected (the
categorical column `B` shifts from all-`x` to all-`y`), yet the tables are
persisted to the valid paths and only the status is `false`. -/
theorem c2_drift_never_rejects_witness :
    initiate_data_validation ks_2samp_model
      (fun p => if p = "train.csv" then .ok [("B", [some (Value.str "x")])]
                else .ok [("B", [some (Value.str "y")])])
      ⟨"train.csv", "test.csv"⟩ ⟨"vt.csv", "vs.csv", "it.csv", "is.csv", "drift.yaml"⟩
      ⟨some ["B"]⟩ =
      ([.readTable "train.csv", .readTable "test.csv",
        .writeReport "drift.yaml" [("B", ⟨-1, true⟩)],
        .writeTable "vt.csv" [("B", [some (Value.str "x")])],
        .writeTable "vs.csv" [("B", [some (Value.str "y")])]],
       .ok { validation_status := false
             valid_train_file_path := some "vt.csv"
             valid_test_file_path := some "vs.csv"
             invalid_train_file_path := none
             invalid_test_file_path := none
             drift_report_file_path := "drift.yaml" }) :=
  c2_drift_never_rejects ks_2samp_model
    (fun p => if p = "train.csv" then .ok [("B", [some (Value.str "x")])]
              else .ok [("B", [some (Value.str "y")])])
    ⟨"train.csv", "test.csv"⟩ ⟨"vt.csv", "vs.csv", "it.csv", "is.csv", "drift.yaml"⟩
    ⟨some ["B"]⟩ ["B"] [("B", [some (Value.str "x")])] [("B", [some (Value.str "y")])]
    false [("B", ⟨-1, true⟩)] rfl rfl rfl rfl rfl (by
      have hu : ({Value.str "x"} ∪ {Value.str "y"} : Finset Value) =
          {Value.str "x", Value.str "y"} := by decide
      have hxy : (Value.str "x") ∉ ({Value.str "y"} : Finset Value) := by decide
      simp [detect_dataset_drift, detectLoop, lookupColumn, compareColumn,
        dropna, is_numeric_dtype, Value.isNum, l1_dist, freq]
      rw [hu, Finset.sum_insert hxy, Finset.sum_singleton,
        (by decide : List.count (Value.str "x") [Value.str "x"] = 1),
        (by decide : List.count (Value.str "x") [Value.str "y"] = 0),
        (by decide : List.count (Value.str "y") [Value.str "x"] = 0),
        (by decide : List.count (Value.str "y") [Value.str "y"] = 1)]
      norm_num)

/-- C3: `validate_no_of_columns` returns true iff the table's column count
equals the schema's column count; in particular it returns false whenever the
counts differ, and it returns true for any table carrying exactly the schema's
columns in any order (names do not influence the boolean result). -/
theorem c3_column_count_check (schema : SchemaConfig) (cols : List String)
    (dataframe : Table) (hschema : schema.columns = some cols) :
    (validate_no_of_columns schema dataframe = .ok true ↔
      dataframe.length = cols.length) ∧
    (dataframe.length ≠ cols.length →
      validate_no_of_columns schema dataframe = .ok false) ∧
    ((dataframe.map Prod.fst).Perm cols →
      validate_no_of_columns schema dataframe = .ok true) := by
  refine ⟨?_, ?_, ?_⟩
  · simp [validate_no_of_columns, hschema]
  · intro hne
    simp [validate_no_of_columns, hschema, hne]
  · intro hperm
    have hlen : dataframe.length = cols.length := by
      simpa using hperm.length_eq
    simp [validate_no_of_columns, hschema, hlen]

/-- C3 witness: a two-column schema against a table with the same columns in
reverse order (accepted) — the counts also agree, and the general theorem is
applied at that concrete table. -/
theorem c3_column_count_check_witness :
    (validate_no_of_columns ⟨some ["A", "B"]⟩ [("B", []), ("A", [])] = .ok true ↔
      ([("B", []), ("A", [])] : Table).length = (["A", "B"] : List String).length) ∧
    (([("B", []), ("A", [])] : Table).length ≠ (["A", "B"] : List String).length →
      validate_no_of_columns ⟨some ["A", "B"]⟩ [("B", []), ("A", [])] = .ok false) ∧
    ((([("B", []), ("A", [])] : Table).map Prod.fst).Perm ["A", "B"] →
      validate_no_of_columns ⟨some ["A", "B"]⟩ [("B", []), ("A", [])] = .ok true) :=
  c3_column_count_check ⟨some ["A", "B"]⟩ ["A", "B"] [("B", []), ("A", [])] rfl

/-- C6: the overall status returned by the drift detector is `false` (drift
detected) iff at least one compared column is flagged; if no record is
flagged, the status is `true`. -/
theorem c6_overall_status_any (ks : List ℚ → List ℚ → Except String ℚ)
    (base current : Table) (threshold : ℚ) (st : Bool) (rep : DriftReport)
    (hdet : detect_dataset_drift ks base current threshold = .ok (st, rep)) :
    (st = false ↔ ∃ nr ∈ rep, nr.2.drift_detected = true) ∧
    ((∀ nr ∈ rep, nr.2.drift_detected = false) → st = true) := by
  have hst : st = rep.all (fun nr => !nr.2.drift_detected) :=
    detectLoop_status ks current threshold base hdet
  subst hst
  constructor
  · rw [← Bool.not_eq_true]
    rw [List.all_eq_true]
    simp
  · intro hall
    rw [List.all_eq_true]
    intro nr hnr
    simp [hall nr hnr]

/-- C6 witness: a run with one drifted categorical column; the status is
`false` and the report's single record is flagged. -/
theorem c6_overall_status_any_witness :
    ((false = false) ↔
      ∃ nr ∈ ([("B", ⟨-1, true⟩)] : DriftReport), nr.2.drift_detected = true) ∧
    ((∀ nr ∈ ([("B", ⟨-1, true⟩)] : DriftReport), nr.2.drift_detected = false) →
      false = true) :=
  c6_overall_status_any ks_2samp_model [("B", [some (Value.str "x")])]
    [("B", [some (Value.str "y")])] (1/20) false [("B", ⟨-1, true⟩)] (by
      have hu : ({Value.str "x"} ∪ {Value.str "y"} : Finset Value) =
          {Value.str "x", Value.str "y"} := by decide
      have hxy : (Value.str "x") ∉ ({Value.str "y"} : Finset Value) := by decide
      simp [detect_dataset_drift, detectLoop, lookupColumn, compareColumn,
        dropna, is_numeric_dtype, Value.isNum, l1_dist, freq]
      rw [hu, Finset.sum_insert hxy, Finset.sum_singleton,
        (by decide : List.count (Value.str "x") [Value.str "x"] = 1),
        (by decide : List.count (Value.str "x") [Value.str "y"] = 0),
        (by decide : List.count (Value.str "y") [Value.str "x"] = 0),
        (by decide : List.count (Value.str "y") [Value.str "y"] = 1)]
      norm_num)

/-- C8: FAILING — a reference column that is all-null (pandas `float64`, hence
numeric dtype) is empty after null-dropping, and the detector feeds the empty
sample straight to the external KS test, whose contract is to raise on empty
data; the per-column loop has no abstention path for it, so the whole
`detect_dataset_drift` call aborts with a wrapped fatal error instead of
skipping the column.  Only columns absent from the candidate are skipped. -/
theorem c8_empty_numeric_column_raises :
    detect_dataset_drift ks_2samp_model [("f", [none, none])]
      [("f", [some (Value.num 1)])] =
      .error "Data passed to ks_2samp must not be empty" := by
  simp [detect_dataset_drift, detectLoop, lookupColumn, compareColumn,
    dropna, is_numeric_dtype, Value.isNum, asNums, ks_2samp_model]

/-- C9 (amended): a schema resource that is missing or unreadable fails at
construction time, before any input table is read (empty event trace); but a
schema file that parses while lacking the expected column list is only
detected inside `validate_no_of_columns`, i.e. the run still aborts fatally,
yet only AFTER both input tables have been read. -/
theorem c9_schema_failure_order (ks : List ℚ → List ℚ → Except String ℚ)
    (reader : String → Except String Table) (ingestion : DataIngestionArtifact)
    (config : DataValidationConfig) (e : String) (train test : Table)
    (htrain : reader ingestion.trained_file_path = .ok train)
    (htest : reader ingestion.test_file_path = .ok test) :
    run_data_validation ks reader (.error e) ingestion config = ([], .error e) ∧
    run_data_validation ks reader (.ok ⟨none⟩) ingestion config =
      ([.readTable ingestion.trained_file_path, .readTable ingestion.test_file_path],
       .error "KeyError: columns") := by
  constructor
  · rfl
  · simp [run_data_validation, initiate_data_validation, validate_no_of_columns,
      htrain, htest]

/-- C9 witness: concrete instantiation of the amended claim. -/
theorem c9_schema_failure_order_witness :
    run_data_validation ks_2samp_model (fun _ => .ok [("A", [])])
      (.error "yaml missing") ⟨"train.csv", "test.csv"⟩
      ⟨"vt.csv", "vs.csv", "it.csv", "is.csv", "drift.yaml"⟩ =
      ([], .error "yaml missing") ∧
    run_data_validation ks_2samp_model (fun _ => .ok [("A", [])])
      (.ok ⟨none⟩) ⟨"train.csv", "test.csv"⟩
      ⟨"vt.csv", "vs.csv", "it.csv", "is.csv", "drift.yaml"⟩ =
      ([.readTable "train.csv", .readTable "test.csv"], .error "KeyError: columns") :=
  c9_schema_failure_order ks_2samp_model (fun _ => .ok [("A", [])])
    ⟨"train.csv", "test.csv"⟩ ⟨"vt.csv", "vs.csv", "it.csv", "is.csv", "drift.yaml"⟩
    "yaml missing" [("A", [])] [("A", [])] rfl rfl

/-- C9 counterexample: with a schema document that parses but lacks the
`"columns"` list, the run does abort fatally — but the event trace shows both
input tables were read BEFORE the abort, refuting "aborts the run before any
input table is read" for the malformed-but-parsing case. -/
theorem c9_counterexample :
    run_data_validation ks_2samp_model (fun _ => .ok [("A", [])])
      (.ok ⟨none⟩) ⟨"train.csv", "test.csv"⟩
      ⟨"vt.csv", "vs.csv", "it.csv", "is.csv", "drift.yaml"⟩ =
      ([.readTable "train.csv", .readTable "test.csv"], .error "KeyError: columns") := by
  simp [run_data_validation, initiate_data_validation, validate_no_of_columns]

/-- C10: when no reference column occurs in the candidate table (e.g. equal
column counts with disjoint names, which passes the count-only schema check),
the detector skips every column and returns `(true, empty report)`; the run
then completes with `validation_status = true`, writing an empty drift report
and both tables to the valid paths. -/
theorem c10_disjoint_columns_pass (ks : List ℚ → List ℚ → Except String ℚ)
    (reader : String → Except String Table) (ingestion : DataIngestionArtifact)
    (config : DataValidationConfig) (schema : SchemaConfig) (cols : List String)
    (train test : Table)
    (hschema : schema.columns = some cols)
    (htrain : reader ingestion.trained_file_path = .ok train)
    (htest : reader ingestion.test_file_path = .ok test)
    (h1 : train.length = cols.length) (h2 : test.length = cols.length)
    (hdisj : ∀ name vals, (name, vals) ∈ train → lookupColumn test name = none) :
    detect_dataset_drift ks train test = .ok (true, []) ∧
    initiate_data_validation ks reader ingestion config schema =
      ([.readTable ingestion.trained_file_path, .readTable ingestion.test_file_path,
        .writeReport config.drift_report_file_path [],
        .writeTable config.valid_train_file_path train,
        .writeTable config.valid_test_file_path test],
       .ok { validation_status := true
             valid_train_file_path := some config.valid_train_file_path
             valid_test_file_path := some config.valid_test_file_path
             invalid_train_file_path := none
             invalid_test_file_path := none
             drift_report_file_path := config.drift_report_file_path }) := by
  have hdet : detect_dataset_drift ks train test = .ok (true, []) :=
    detectLoop_all_skipped ks test (1/20) train hdisj
  exact ⟨hdet, initiate_ok_of_valid ks reader ingestion config schema cols train
    test true [] hschema htrain htest h1 h2 hdet⟩

/-- C10 witness: reference `[A]`, candidate `[B]` — same column count,
disjoint names; the run is accepted with an empty report. -/
theorem c10_disjoint_columns_pass_witness :
    detect_dataset_drift ks_2samp_model [("A", [some (Value.num 1)])]
      [("B", [some (Value.num 2)])] = .ok (true, []) ∧
    initiate_data_validation ks_2samp_model
      (fun p => if p = "train.csv" then .ok [("A", [some (Value.num 1)])]
                else .ok [("B", [some (Value.num 2)])])
      ⟨"train.csv", "test.csv"⟩ ⟨"vt.csv", "vs.csv", "it.csv", "is.csv", "drift.yaml"⟩
      ⟨some ["A"]⟩ =
      ([.readTable "train.csv", .readTable "test.csv",
        .writeReport "drift.yaml" [],
        .writeTable "vt.csv" [("A", [some (Value.num 1)])],
        .writeTable "vs.csv" [("B", [some (Value.num 2)])]],
       .ok { validation_status := true
             valid_train_file_path := some "vt.csv"
             valid_test_file_path := some "vs.csv"
             invalid_train_file_path := none
             invalid_test_file_path := none
             drift_report_file_path := "drift.yaml" }) :=
  c10_disjoint_columns_pass ks_2samp_model
    (fun p => if p = "train.csv" then .ok [("A", [some (Value.num 1)])]
              else .ok [("B", [some (Value.num 2)])])
    ⟨"train.csv", "test.csv"⟩ ⟨"vt.csv", "vs.csv", "it.csv", "is.csv", "drift.yaml"⟩
    ⟨some ["A"]⟩ ["A"] [("A", [some (Value.num 1)])] [("B", [some (Value.num 2)])]
    rfl rfl rfl rfl rfl (by
      intro name vals hmem
      simp at hmem
      obtain ⟨rfl, rfl⟩ := hmem
      rfl)

/-- C4: every report record of a numeric-dtype reference column present in the
candidate arises by dropping nulls from both sides independently and handing
the samples to the two-sample KS test; assuming the external test returns
p-values in [0,1] (scipy's contract), the recorded p-value is in [0,1] and
drift is flagged iff `p_value < threshold`; the `threshold` argument defaults
to 0.05. -/
theorem c4_numeric_ks_branch (ks : List ℚ → List ℚ → Except String ℚ)
    (base current : Table) (threshold : ℚ) (st : Bool) (rep : DriftReport)
    (name : String) (r : ColumnDriftRecord)
    (hdet : detect_dataset_drift ks base current threshold = .ok (st, rep))
    (hmem : (name, r) ∈ rep)
    (hrange : ∀ a b p, ks a b = .ok p → 0 ≤ p ∧ p ≤ 1) :
    detect_dataset_drift ks base current =
      detect_dataset_drift ks base current (5/100) ∧
    ∃ vals cvals, (name, vals) ∈ base ∧ lookupColumn current name = some cvals ∧
      (is_numeric_dtype (dropna vals) = true →
        ∃ n1 n2 p, asNums (dropna vals) = .ok n1 ∧ asNums (dropna cvals) = .ok n2 ∧
          ks n1 n2 = .ok p ∧ r.p_value = p ∧ 0 ≤ p ∧ p ≤ 1 ∧
          (r.drift_detected = true ↔ p < threshold)) := by
  constructor
  · have h : (5/100 : ℚ) = 1/20 := by norm_num
    rw [h]
  · obtain ⟨vals, cvals, hmem', hlook, hcomp⟩ :=
      detectLoop_sound ks current threshold base hdet (name, r) hmem
    refine ⟨vals, cvals, hmem', hlook, ?_⟩
    intro hnum
    rw [compareColumn, if_pos hnum] at hcomp
    split at hcomp
    · exact absurd hcomp (by simp)
    · split at hcomp
      · exact absurd hcomp (by simp)
      · split at hcomp
        · exact absurd hcomp (by simp)
        · rename_i x1 n1 hn1 x2 n2 hn2 x3 p hks
          simp only [Except.ok.injEq] at hcomp
          subst hcomp
          obtain ⟨hp0, hp1⟩ := hrange n1 n2 p hks
          exact ⟨n1, n2, p, hn1, hn2, hks, rfl, hp0, hp1, by simp⟩

/-- C4 witness: instantiating the KS test with a constant p-value 1/2 on a
numeric column with a null entry dropped. -/
theorem c4_numeric_ks_branch_witness :
    detect_dataset_drift (fun _ _ => .ok (1/2)) [("A", [some (Value.num 0), none])]
        [("A", [some (Value.num 2)])] =
      detect_dataset_drift (fun _ _ => .ok (1/2)) [("A", [some (Value.num 0), none])]
        [("A", [some (Value.num 2)])] (5/100) ∧
    ∃ vals cvals, ("A", vals) ∈ ([("A", [some (Value.num 0), none])] : Table) ∧
      lookupColumn [("A", [some (Value.num 2)])] "A" = some cvals ∧
      (is_numeric_dtype (dropna vals) = true →
        ∃ n1 n2 p, asNums (dropna vals) = .ok n1 ∧ asNums (dropna cvals) = .ok n2 ∧
          (fun (_ _ : List ℚ) => (.ok (1/2) : Except String ℚ)) n1 n2 = .ok p ∧
          (⟨1/2, false⟩ : ColumnDriftRecord).p_value = p ∧ 0 ≤ p ∧ p ≤ 1 ∧
          ((⟨1/2, false⟩ : ColumnDriftRecord).drift_detected = true ↔ p < 1/20)) :=
  c4_numeric_ks_branch (fun _ _ => .ok (1/2)) [("A", [some (Value.num 0), none])]
    [("A", [some (Value.num 2)])] (1/20) true [("A", ⟨1/2, false⟩)] "A" ⟨1/2, false⟩
    (by
      simp [detect_dataset_drift, detectLoop, lookupColumn, compareColumn,
        dropna, is_numeric_dtype, Value.isNum, asNums]
      norm_num)
    (List.Mem.head _)
    (fun a b p h => by
      simp only [Except.ok.injEq] at h
      subst h
      norm_num)

/-- C5: every report record of a non-numeric (categorical) reference column
present in the candidate is computed from the normalized frequency tables of
the null-dropped samples: the drift score is the sum over the union of both
category sets of the absolute frequency differences, drift is flagged iff this
distance exceeds the threshold, and the record's `p_value` equals
`1 - distance`. -/
theorem c5_categorical_branch (ks : List ℚ → List ℚ → Except String ℚ)
    (base current : Table) (threshold : ℚ) (st : Bool) (rep : DriftReport)
    (name : String) (r : ColumnDriftRecord)
    (hdet : detect_dataset_drift ks base current threshold = .ok (st, rep))
    (hmem : (name, r) ∈ rep) :
    ∃ vals cvals, (name, vals) ∈ base ∧ lookupColumn current name = some cvals ∧
      (is_numeric_dtype (dropna vals) = false →
        r.p_value =
          1 - ∑ c ∈ (dropna vals).toFinset ∪ (dropna cvals).toFinset,
              |freq (dropna vals) c - freq (dropna cvals) c| ∧
        (r.drift_detected = true ↔
          ∑ c ∈ (dropna vals).toFinset ∪ (dropna cvals).toFinset,
              |freq (dropna vals) c - freq (dropna cvals) c| > threshold)) := by
  obtain ⟨vals, cvals, hmem', hlook, hcomp⟩ :=
    detectLoop_sound ks current threshold base hdet (name, r) hmem
  refine ⟨vals, cvals, hmem', hlook, ?_⟩
  intro hcat
  rw [compareColumn, if_neg (by simp [hcat])] at hcomp
  simp only [Except.ok.injEq] at hcomp
  subst hcomp
  exact ⟨rfl, by simp [l1_dist]⟩

/-- C5 witness: reference column `B` all-`"x"`, candidate all-`"y"`: distance
2, pseudo p-value `1 - 2 = -1`, drift flagged. -/
theorem c5_categorical_branch_witness :
    ∃ vals cvals, ("B", vals) ∈ ([("B", [some (Value.str "x")])] : Table) ∧
      lookupColumn [("B", [some (Value.str "y")])] "B" = some cvals ∧
      (is_numeric_dtype (dropna vals) = false →
        (⟨-1, true⟩ : ColumnDriftRecord).p_value =
          1 - ∑ c ∈ (dropna vals).toFinset ∪ (dropna cvals).toFinset,
              |freq (dropna vals) c - freq (dropna cvals) c| ∧
        ((⟨-1, true⟩ : ColumnDriftRecord).drift_detected = true ↔
          ∑ c ∈ (dropna vals).toFinset ∪ (dropna cvals).toFinset,
              |freq (dropna vals) c - freq (dropna cvals) c| > 1/20)) :=
  c5_categorical_branch ks_2samp_model [("B", [some (Value.str "x")])]
    [("B", [some (Value.str "y")])] (1/20) false [("B", ⟨-1, true⟩)] "B" ⟨-1, true⟩
    (by
      have hu : ({Value.str "x"} ∪ {Value.str "y"} : Finset Value) =
          {Value.str "x", Value.str "y"} := by decide
      have hxy : (Value.str "x") ∉ ({Value.str "y"} : Finset Value) := by decide
      simp [detect_dataset_drift, detectLoop, lookupColumn, compareColumn,
        dropna, is_numeric_dtype, Value.isNum, l1_dist, freq]
      rw [hu, Finset.sum_insert hxy, Finset.sum_singleton,
        (by decide : List.count (Value.str "x") [Value.str "x"] = 1),
        (by decide : List.count (Value.str "x") [Value.str "y"] = 0),
        (by decide : List.count (Value.str "y") [Value.str "x"] = 0),
        (by decide : List.count (Value.str "y") [Value.str "y"] = 1)]
      norm_num)
    (List.Mem.head _)

/-! ### Helper lemmas about normalized frequencies -/

theorem freq_nonneg (l : List Value) (c : Value) : 0 ≤ freq l c := by
  unfold freq
  positivity

theorem freq_eq_zero_of_not_mem (l : List Value) (c : Value) (h : c ∉ l) :
    freq l c = 0 := by
  unfold freq
  rw [List.count_eq_zero.mpr h]
  simp

/-- The total count of the elements of `l`, summed over any finite superset of
its support. -/
theorem sum_count_toFinset (l : List Value) :
    ∑ c ∈ l.toFinset, l.count c = l.length := by
  simp

/-- A normalized frequency table sums to at most 1 over any superset of the
sample's support (exactly 1 for a non-empty sample, 0 for an empty one). -/
theorem sum_freq_le_one (l : List Value) (s : Finset Value) (hs : l.toFinset ⊆ s) :
    ∑ c ∈ s, freq l c ≤ 1 := by
  unfold freq
  rw [← Finset.sum_div]
  rw [← Finset.sum_subset hs (fun x _ hx => by
    rw [List.count_eq_zero.mpr (fun hmem => hx (List.mem_toFinset.mpr hmem))]
    simp)]
  rw [← Nat.cast_sum, sum_count_toFinset]
  rcases Nat.eq_zero_or_pos l.length with h | h
  · simp [h]
  · rw [div_self (by exact_mod_cast h.ne')]

/-- C7: the categorical drift score — the L1 distance between the two
normalized frequency tables taken over the union of their category sets — lies
in [0, 2], and is 0 exactly when the two frequency distributions are
identical. -/
theorem c7_l1_distance_bounds (l1 l2 : List Value) :
    0 ≤ l1_dist l1 l2 ∧ l1_dist l1 l2 ≤ 2 ∧
    (l1_dist l1 l2 = 0 ↔ ∀ c, freq l1 c = freq l2 c) := by
  unfold l1_dist
  refine ⟨Finset.sum_nonneg (fun c _ => abs_nonneg _), ?_, ?_⟩
  · calc
      ∑ c ∈ l1.toFinset ∪ l2.toFinset, |freq l1 c - freq l2 c| ≤
          ∑ c ∈ l1.toFinset ∪ l2.toFinset, (freq l1 c + freq l2 c) := by
        refine Finset.sum_le_sum (fun c _ => ?_)
        have h := abs_sub (freq l1 c) (freq l2 c)
        rwa [abs_of_nonneg (freq_nonneg l1 c), abs_of_nonneg (freq_nonneg l2 c)] at h
      _ = (∑ c ∈ l1.toFinset ∪ l2.toFinset, freq l1 c) +
          ∑ c ∈ l1.toFinset ∪ l2.toFinset, freq l2 c := Finset.sum_add_distrib
      _ ≤ 1 + 1 := add_le_add
          (sum_freq_le_one l1 _ Finset.subset_union_left)
          (sum_freq_le_one l2 _ Finset.subset_union_right)
      _ = 2 := by norm_num
  · constructor
    · intro h0 c
      have hall := (Finset.sum_eq_zero_iff_of_nonneg
        (fun c _ => abs_nonneg (freq l1 c - freq l2 c))).mp h0
      by_cases hc : c ∈ l1.toFinset ∪ l2.toFinset
      · have hz := hall c hc
        rwa [abs_eq_zero, sub_eq_zero] at hz
      · rw [Finset.mem_union] at hc
        push_neg at hc
        rw [freq_eq_zero_of_not_mem l1 c (fun hm => hc.1 (List.mem_toFinset.mpr hm)),
          freq_eq_zero_of_not_mem l2 c (fun hm => hc.2 (List.mem_toFinset.mpr hm))]
    · intro h
      exact Finset.sum_eq_zero (fun c _ => by rw [h c, sub_self, abs_zero])
